import Mathlib

/-!
Verification of the pharmaceutical route optimizer
(src/Prototyping/route-optimizer/route_planner.py).

Shallow embedding conventions:
* Python floats for coordinates, priorities, timestamps and weather data are
  modelled as exact rationals on the data-model side; real-valued arithmetic
  (the haversine distance and the composite score) lives in the reals.
* Timestamps are rationals counting seconds (the code converts differences
  to hours by dividing total seconds by 3600).
* Every call of datetime.now() in the source is made explicit: the
  optimization entry point takes the call time t0 (used to build the depot
  record) and a stream clock : Nat -> Rat giving the wall-clock reading at
  each iteration of the greedy loop, mirroring the fact that the source
  re-reads the clock inside each scoring step.
* Python's minus-infinity initial best score is modelled with WithBot Real.
-/

/-- Delivery point record, from the Pharmacy dataclass (route_planner.py
lines 14-21).  The priority field is annotated int in the source but the
adjustment code stores a float product, so it is a rational here. -/
structure Pharmacy where
  id : String
  name : String
  latitude : ℚ
  longitude : ℚ
  priority : ℚ
  delivery_window : ℚ × ℚ
deriving DecidableEq, Repr

/-- Weather dictionary passed to the optimizer (keys condition, temperature,
wind_speed, as in the example usage of route_planner.py). -/
structure Weather where
  condition : String
  temperature : ℚ
  wind_speed : ℚ
deriving DecidableEq, Repr

/-- Route segment record, from the RouteSegment dataclass (route_planner.py
lines 23-30). -/
structure RouteSegment where
  start_pharmacy : Pharmacy
  end_pharmacy : Pharmacy
  distance_km : ℝ
  estimated_duration_min : ℤ
  road_conditions : String
  weather_risk : ℝ

/-- Route report produced by generate_route_report (route_planner.py lines
270-278).  The route_id and generated_at fields of the source are strings
derived from the wall-clock call time and carry no route data; they are not
modelled. -/
structure RouteReport where
  total_distance_km : ℝ
  total_duration_min : ℤ
  pharmacy_count : ℤ
  segments : List RouteSegment
  estimated_fuel_consumption : ℝ

/-- Degree-to-radian conversion, Python math.radians. -/
noncomputable def radians (x : ℝ) : ℝ := x * Real.pi / 180

/-- Two-argument arctangent, Python math.atan2 (quadrant-correct; the
signed-zero distinctions of IEEE floats are not modelled). -/
noncomputable def atan2 (y x : ℝ) : ℝ :=
  if 0 < x then Real.arctan (y / x)
  else if x < 0 ∧ 0 ≤ y then Real.arctan (y / x) + Real.pi
  else if x < 0 then Real.arctan (y / x) - Real.pi
  else if 0 < y then Real.pi / 2
  else if y < 0 then -(Real.pi / 2)
  else 0

/-- Haversine great-circle distance,
PharmaceuticalRouteOptimizer.calculate_distance (route_planner.py lines
55-68): Earth radius 6371 km, inputs in degrees. -/
noncomputable def calculate_distance (lat1 lon1 lat2 lon2 : ℝ) : ℝ :=
  let R : ℝ := 6371
  let rlat1 := radians lat1
  let rlon1 := radians lon1
  let rlat2 := radians lat2
  let rlon2 := radians lon2
  let dlat := rlat2 - rlat1
  let dlon := rlon2 - rlon1
  let a := Real.sin (dlat / 2) ^ 2 +
    Real.cos rlat1 * Real.cos rlat2 * Real.sin (dlon / 2) ^ 2
  let c := 2 * atan2 (Real.sqrt a) (Real.sqrt (1 - a))
  R * c

lemma sin_half_sub_sq (x y : ℝ) :
    Real.sin ((x - y) / 2) ^ 2 = Real.sin ((y - x) / 2) ^ 2 := by
  rw [show (x - y) / 2 = -((y - x) / 2) by ring, Real.sin_neg, neg_sq]

/-- C8: the haversine distance of route_planner.py is symmetric in its two
points and vanishes on identical points, for all real coordinate inputs (in
particular for all valid ones). -/
theorem calculate_distance_symm_and_zero (lat1 lon1 lat2 lon2 : ℝ) :
    calculate_distance lat1 lon1 lat2 lon2 = calculate_distance lat2 lon2 lat1 lon1 ∧
    calculate_distance lat1 lon1 lat1 lon1 = 0 := by
  constructor
  · simp only [calculate_distance]
    rw [sin_half_sub_sq, sin_half_sub_sq (radians lon2) (radians lon1),
      mul_comm (Real.cos (radians lat1)) (Real.cos (radians lat2))]
  · simp only [calculate_distance, sub_self, zero_div, Real.sin_zero,
      ne_eq, OfNat.ofNat_ne_zero, not_false_eq_true, zero_pow, mul_zero,
      add_zero, Real.sqrt_zero, sub_zero, Real.sqrt_one, atan2, zero_lt_one,
      if_true, Real.arctan_zero, mul_zero]

/-- Emergency multiplier lookup,
PharmaceuticalRouteOptimizer._detect_emergency_situation (route_planner.py
lines 142-153): dictionary with entries pharmacy_001 -> 2.5 and
pharmacy_005 -> 1.8, default 1.0. -/
def detect_emergency_situation (pharmacy : Pharmacy) : ℚ :=
  if pharmacy.id = "pharmacy_001" then 5 / 2
  else if pharmacy.id = "pharmacy_005" then 9 / 5
  else 1

/-- Per-point priority boost: the new-Pharmacy construction inside
_apply_emergency_priority (route_planner.py lines 126-137).  All fields are
copied; the priority becomes min(10, priority * multiplier) with no
rounding. -/
def boost_pharmacy (pharmacy : Pharmacy) : Pharmacy :=
  { pharmacy with
    priority := min 10 (pharmacy.priority * detect_emergency_situation pharmacy) }

/-- Comparison used by the descending stable sort in
_apply_emergency_priority: Python sorted(key priority, reverse True). -/
def priority_ge (a b : Pharmacy) : Bool := b.priority ≤ a.priority

/-- PharmaceuticalRouteOptimizer._apply_emergency_priority (route_planner.py
lines 116-140): boost every point, then stable-sort by descending priority.
Python's sorted is a stable sort; so is List.mergeSort. -/
def apply_emergency_priority (pharmacies : List Pharmacy) : List Pharmacy :=
  (pharmacies.map boost_pharmacy).mergeSort priority_ge

/-- PharmaceuticalRouteOptimizer._calculate_weather_impact (route_planner.py
lines 200-217): base risk 0.1, +0.3 for latitude above 52.5, +0.4 for snow
or +0.2 for rain, capped at 1.0. -/
def calculate_weather_impact (weather : Weather) (pharmacy : Pharmacy) : ℚ :=
  let base_risk : ℚ := 1 / 10
  let base_risk := if 105 / 2 < pharmacy.latitude then base_risk + 3 / 10 else base_risk
  let base_risk :=
    if weather.condition = "snow" then base_risk + 2 / 5
    else if weather.condition = "rain" then base_risk + 1 / 5
    else base_risk
  min base_risk 1

/-- PharmaceuticalRouteOptimizer._calculate_time_urgency (route_planner.py
lines 219-233), with the datetime.now() read made an explicit argument now
(seconds): 30 if the window opens within 2 hours, 15 within 4, else 5. -/
def calculate_time_urgency (pharmacy : Pharmacy) (now : ℚ) : ℚ :=
  let time_until_start := (pharmacy.delivery_window.1 - now) / 3600
  if time_until_start ≤ 2 then 30
  else if time_until_start ≤ 4 then 15
  else 5

/-- PharmaceuticalRouteOptimizer._calculate_pharmacy_score (route_planner.py
lines 173-198): sum of the distance, priority, weather and urgency terms.
The wall-clock read inside the urgency helper is the explicit argument
now. -/
noncomputable def calculate_pharmacy_score (current target : Pharmacy)
    (weather : Weather) (now : ℚ) : ℝ :=
  let distance := calculate_distance (current.latitude : ℝ) (current.longitude : ℝ)
    (target.latitude : ℝ) (target.longitude : ℝ)
  let distance_score := 100 / (distance + 1)
  let priority_score := (target.priority : ℝ) * 10
  let weather_impact := calculate_weather_impact weather target
  let weather_score := 50 * (1 - (weather_impact : ℝ))
  let time_urgency := (calculate_time_urgency target now : ℝ)
  distance_score + priority_score + weather_score + time_urgency

/-- Loop body of PharmaceuticalRouteOptimizer._select_next_pharmacy
(route_planner.py lines 155-171): best_score starts at minus infinity
(bottom of WithBot Real), best_pharmacy at none; a candidate replaces the
best exactly when its score is strictly greater. -/
noncomputable def select_loop (current : Pharmacy) (weather : Weather) (now : ℚ) :
    List Pharmacy → WithBot ℝ → Option Pharmacy → Option Pharmacy
  | [], _, best_pharmacy => best_pharmacy
  | pharmacy :: rest, best_score, best_pharmacy =>
    let score := calculate_pharmacy_score current pharmacy weather now
    if best_score < (score : WithBot ℝ) then
      select_loop current weather now rest (score : WithBot ℝ) (some pharmacy)
    else
      select_loop current weather now rest best_score best_pharmacy

/-- PharmaceuticalRouteOptimizer._select_next_pharmacy (route_planner.py
lines 155-171). -/
noncomputable def select_next_pharmacy (current : Pharmacy)
    (candidates : List Pharmacy) (weather : Weather) (now : ℚ) : Option Pharmacy :=
  select_loop current weather now candidates ⊥ none

/-- Greedy while-loop of optimize_delivery_route (route_planner.py lines
96-108), returning the sequence of stops appended after the depot.  Each
iteration scores the unvisited points against the current last stop and the
clock reading of that iteration, appends the selected point and removes it
(list.remove drops the first equal element, List.erase here); a none result
is the break branch.  The loop removes one element per iteration, so the
fuel initialised to the unvisited length is exact. -/
noncomputable def greedy_stops (weather : Weather) (clock : ℕ → ℚ) :
    ℕ → ℕ → Pharmacy → List Pharmacy → List Pharmacy
  | 0, _, _, _ => []
  | fuel + 1, step, current, unvisited =>
    match select_next_pharmacy current unvisited weather (clock step) with
    | none => []
    | some next => next ::
        greedy_stops weather clock fuel (step + 1) next (unvisited.erase next)

/-- Depot record built at the top of optimize_delivery_route
(route_planner.py lines 80-87); t0 is the datetime.now() reading at the
call, the window closes eight hours (28800 seconds) later. -/
def depot (t0 : ℚ) : Pharmacy :=
  { id := "depot"
    name := "Central Distribution Center"
    latitude := 520375 / 10000
    longitude := 1066522 / 10000
    priority := 1
    delivery_window := (t0, t0 + 28800) }

/-- PharmaceuticalRouteOptimizer.optimize_delivery_route (route_planner.py
lines 70-114): empty input returns the empty route; otherwise the depot is
followed by the greedy stop sequence over the priority-adjusted candidates
and a final depot.  vehicle_capacity is accepted and unused, as in the
source; t0 and clock make the datetime.now() reads explicit. -/
noncomputable def optimize_delivery_route (pharmacies : List Pharmacy)
    (vehicle_capacity : ℤ) (current_weather : Weather)
    (t0 : ℚ) (clock : ℕ → ℚ) : List Pharmacy :=
  if pharmacies = [] then []
  else
    let d := depot t0
    let prioritized := apply_emergency_priority pharmacies
    d :: greedy_stops current_weather clock prioritized.length 0 d prioritized ++ [d]

/-- Python round(x, 2): rounding to two decimals.  Mathlib round is
half-up while Python uses banker's rounding; they agree except at exact
half-cent ties, which no claim touches. -/
noncomputable def round2 (x : ℝ) : ℝ := (round (x * 100) : ℤ) / 100

/-- Python int() conversion: truncation toward zero. -/
noncomputable def py_int (x : ℝ) : ℤ := if 0 ≤ x then ⌊x⌋ else ⌈x⌉

/-- Road-condition weight table of the optimizer constructor
(route_planner.py lines 40-46), accessed with dict.get. -/
def road_conditions_weights (s : String) : Option ℚ :=
  if s = "highway" then some 1
  else if s = "paved_road" then some (6 / 5)
  else if s = "gravel_road" then some (3 / 2)
  else if s = "mountain_pass" then some 2
  else if s = "winter_road" then some (9 / 5)
  else none

/-- Unrounded haversine length of one route segment, as accumulated into
total_distance by generate_route_report. -/
noncomputable def segment_distance (pair : Pharmacy × Pharmacy) : ℝ :=
  calculate_distance (pair.1.latitude : ℝ) (pair.1.longitude : ℝ)
    (pair.2.latitude : ℝ) (pair.2.longitude : ℝ)

/-- Unrounded duration of one route segment in minutes: (distance / 60) *
1.2 * 60 with base speed 60 km/h and the paved_road factor (route_planner.py
lines 252-255). -/
noncomputable def segment_duration (pair : Pharmacy × Pharmacy) : ℝ :=
  let base_speed : ℝ := 60
  let road_condition_factor : ℝ := ((road_conditions_weights "paved_road").getD 1 : ℝ)
  (segment_distance pair / base_speed) * road_condition_factor * 60

/-- PharmaceuticalRouteOptimizer.generate_route_report (route_planner.py
lines 235-278).  The loop over range(len(route) - 1) walks consecutive
pairs, modelled by zipping the route with its tail. -/
noncomputable def generate_route_report (route : List Pharmacy) : RouteReport :=
  let pairs := route.zip route.tail
  let total_distance := (pairs.map segment_distance).sum
  let total_duration := (pairs.map segment_duration).sum
  { total_distance_km := round2 total_distance
    total_duration_min := py_int total_duration
    pharmacy_count := (route.length : ℤ) - 2
    segments := pairs.map fun pair =>
      { start_pharmacy := pair.1
        end_pharmacy := pair.2
        distance_km := round2 (segment_distance pair)
        estimated_duration_min := py_int (segment_duration pair)
        road_conditions := "paved_road"
        weather_risk := (1 : ℝ) / 10 }
    estimated_fuel_consumption := round2 (total_distance * (12 / 100)) }

lemma select_loop_some (current : Pharmacy) (weather : Weather) (now : ℚ) :
    ∀ (l : List Pharmacy) (b : WithBot ℝ) (p0 : Pharmacy),
    ∃ p, select_loop current weather now l b (some p0) = some p ∧ (p = p0 ∨ p ∈ l)
  | [], _, p0 => ⟨p0, rfl, Or.inl rfl⟩
  | q :: rest, b, p0 => by
    simp only [select_loop]
    split
    · obtain ⟨p, hp, hmem⟩ := select_loop_some current weather now rest
        ((calculate_pharmacy_score current q weather now : WithBot ℝ)) q
      refine ⟨p, hp, Or.inr ?_⟩
      rcases hmem with h | h
      · exact h ▸ List.mem_cons_self q rest
      · exact List.mem_cons_of_mem _ h
    · obtain ⟨p, hp, hmem⟩ := select_loop_some current weather now rest b p0
      refine ⟨p, hp, ?_⟩
      rcases hmem with h | h
      · exact Or.inl h
      · exact Or.inr (List.mem_cons_of_mem _ h)

/-- Helper: on a non-empty candidate list the selection loop returns a
member of the list. -/
lemma select_next_pharmacy_mem (current : Pharmacy) (candidates : List Pharmacy)
    (weather : Weather) (now : ℚ) (h : candidates ≠ []) :
    ∃ p, select_next_pharmacy current candidates weather now = some p ∧ p ∈ candidates := by
  match candidates, h with
  | q :: rest, _ =>
    simp only [select_next_pharmacy, select_loop]
    rw [if_pos (WithBot.bot_lt_coe _)]
    obtain ⟨p, hp, hmem⟩ := select_loop_some current weather now rest
      ((calculate_pharmacy_score current q weather now : WithBot ℝ)) q
    refine ⟨p, hp, ?_⟩
    rcases hmem with h' | h'
    · exact h' ▸ List.mem_cons_self q rest
    · exact List.mem_cons_of_mem _ h'

lemma select_loop_first_max (current : Pharmacy) (weather : Weather) (now : ℚ) :
    ∀ (l : List Pharmacy) (s : ℝ) (q r : Pharmacy),
    select_loop current weather now l (s : WithBot ℝ) (some q) = some r →
    (r = q ∧ ∀ p ∈ l, calculate_pharmacy_score current p weather now ≤ s) ∨
    (∃ l1 l2, l = l1 ++ r :: l2 ∧
      s < calculate_pharmacy_score current r weather now ∧
      (∀ p ∈ l1, calculate_pharmacy_score current p weather now <
        calculate_pharmacy_score current r weather now) ∧
      (∀ p ∈ l2, calculate_pharmacy_score current p weather now ≤
        calculate_pharmacy_score current r weather now))
  | [], s, q, r => by
    intro h
    simp only [select_loop, Option.some.injEq] at h
    exact Or.inl ⟨h.symm, by simp⟩
  | a :: rest, s, q, r => by
    intro h
    simp only [select_loop] at h
    by_cases hc : (s : WithBot ℝ) < (calculate_pharmacy_score current a weather now : WithBot ℝ)
    · rw [if_pos hc] at h
      have hsa : s < calculate_pharmacy_score current a weather now := WithBot.coe_lt_coe.mp hc
      rcases select_loop_first_max current weather now rest
          (calculate_pharmacy_score current a weather now) a r h with ⟨hr, hall⟩ | ⟨l1, l2, hdec, hs, h1, h2⟩
      · subst hr
        refine Or.inr ⟨[], rest, by simp, hsa, by simp, ?_⟩
        exact hall
      · refine Or.inr ⟨a :: l1, l2, by rw [hdec]; rfl, lt_trans hsa hs, ?_, h2⟩
        intro p hp
        rcases List.mem_cons.mp hp with h' | h'
        · exact h' ▸ hs
        · exact h1 p h'
    · rw [if_neg hc] at h
      have hsa : calculate_pharmacy_score current a weather now ≤ s := by
        have := not_lt.mp hc
        exact_mod_cast WithBot.coe_le_coe.mp (by exact_mod_cast this)
      rcases select_loop_first_max current weather now rest s q r h with ⟨hr, hall⟩ | ⟨l1, l2, hdec, hs, h1, h2⟩
      · refine Or.inl ⟨hr, ?_⟩
        intro p hp
        rcases List.mem_cons.mp hp with h' | h'
        · exact h' ▸ hsa
        · exact hall p h'
      · refine Or.inr ⟨a :: l1, l2, by rw [hdec]; rfl, hs, ?_, h2⟩
        intro p hp
        rcases List.mem_cons.mp hp with h' | h'
        · exact h' ▸ lt_of_le_of_lt hsa hs
        · exact h1 p h'

lemma select_next_pharmacy_singleton (current p : Pharmacy) (weather : Weather) (now : ℚ) :
    select_next_pharmacy current [p] weather now = some p := by
  simp only [select_next_pharmacy, select_loop]
  rw [if_pos (WithBot.bot_lt_coe _)]

lemma select_next_pharmacy_pair_first (current p1 p2 : Pharmacy) (weather : Weather) (now : ℚ)
    (h : calculate_pharmacy_score current p2 weather now ≤
      calculate_pharmacy_score current p1 weather now) :
    select_next_pharmacy current [p1, p2] weather now = some p1 := by
  simp only [select_next_pharmacy, select_loop]
  rw [if_pos (WithBot.bot_lt_coe _), if_neg (by exact_mod_cast not_lt.mpr h)]

lemma select_next_pharmacy_pair_second (current p1 p2 : Pharmacy) (weather : Weather) (now : ℚ)
    (h : calculate_pharmacy_score current p1 weather now <
      calculate_pharmacy_score current p2 weather now) :
    select_next_pharmacy current [p1, p2] weather now = some p2 := by
  simp only [select_next_pharmacy, select_loop]
  rw [if_pos (WithBot.bot_lt_coe _), if_pos (by exact_mod_cast h)]

lemma greedy_stops_zero (weather : Weather) (clock : ℕ → ℚ) (step : ℕ)
    (current : Pharmacy) (unvisited : List Pharmacy) :
    greedy_stops weather clock 0 step current unvisited = [] := rfl

lemma greedy_stops_succ (weather : Weather) (clock : ℕ → ℚ) (fuel step : ℕ)
    (current : Pharmacy) (unvisited : List Pharmacy) (next : Pharmacy)
    (hsel : select_next_pharmacy current unvisited weather (clock step) = some next) :
    greedy_stops weather clock (fuel + 1) step current unvisited =
      next :: greedy_stops weather clock fuel (step + 1) next (unvisited.erase next) := by
  simp only [greedy_stops, hsel]

/-- Helper: the greedy loop consumes its fuel one candidate at a time, and
with fuel equal to the number of unvisited points it emits a permutation of
them (the break branch of the source loop is unreachable). -/
lemma greedy_stops_perm (weather : Weather) (clock : ℕ → ℚ) :
    ∀ (fuel step : ℕ) (current : Pharmacy) (l : List Pharmacy), l.length = fuel →
    (greedy_stops weather clock fuel step current l).Perm l
  | 0, _, _, l, h => by
    rw [List.length_eq_zero] at h
    subst h
    exact List.Perm.refl _
  | fuel + 1, step, current, l, h => by
    have hne : l ≠ [] := by
      intro e
      subst e
      simp at h
    obtain ⟨p, hp, hmem⟩ := select_next_pharmacy_mem current l weather (clock step) hne
    rw [greedy_stops_succ weather clock fuel step current l p hp]
    have hlen : (l.erase p).length = fuel := by
      rw [List.length_erase_of_mem hmem, h]
      rfl
    exact ((greedy_stops_perm weather clock fuel (step + 1) p (l.erase p) hlen).cons p).trans
      (List.perm_cons_erase hmem).symm

/-- Helper: shape of every non-empty optimization result, shared by the
route-shape claims: depot-bracketed, with the stop block a permutation of
the boosted input points. -/
lemma optimize_delivery_route_shape (pharmacies : List Pharmacy) (vehicle_capacity : ℤ)
    (current_weather : Weather) (t0 : ℚ) (clock : ℕ → ℚ) (h : pharmacies ≠ []) :
    ∃ body, optimize_delivery_route pharmacies vehicle_capacity current_weather t0 clock =
        depot t0 :: body ++ [depot t0] ∧
      body.Perm (pharmacies.map boost_pharmacy) := by
  refine ⟨greedy_stops current_weather clock (apply_emergency_priority pharmacies).length 0
    (depot t0) (apply_emergency_priority pharmacies), ?_, ?_⟩
  · simp only [optimize_delivery_route, if_neg h]
  · exact (greedy_stops_perm current_weather clock _ 0 (depot t0) _ rfl).trans
      (List.mergeSort_perm _ _)

/-- Helper: the weather-impact term reads only the latitude of the target
point. -/
lemma calculate_weather_impact_congr (weather : Weather) (a b : Pharmacy)
    (h : a.latitude = b.latitude) :
    calculate_weather_impact weather a = calculate_weather_impact weather b := by
  simp only [calculate_weather_impact, h]

/-- Helper: the score difference of two candidates sharing coordinates is
ten times the priority difference plus the urgency difference. -/
lemma calculate_pharmacy_score_diff (current a b : Pharmacy) (weather : Weather) (now : ℚ)
    (hlat : a.latitude = b.latitude) (hlon : a.longitude = b.longitude) :
    calculate_pharmacy_score current a weather now -
      calculate_pharmacy_score current b weather now =
    ((a.priority : ℝ) - (b.priority : ℝ)) * 10 +
      ((calculate_time_urgency a now : ℝ) - (calculate_time_urgency b now : ℝ)) := by
  simp only [calculate_pharmacy_score, hlat, hlon,
    calculate_weather_impact_congr weather a b hlat]
  ring

/-- Sample weather snapshot (clear skies). -/
def weather_clear : Weather := { condition := "clear", temperature := -5, wind_speed := 10 }

/-- Sample delivery point with no emergency multiplier and in-range data. -/
def routine_pharmacy : Pharmacy :=
  { id := "pharmacy_123", name := "Routine", latitude := 52, longitude := 106,
    priority := 7, delivery_window := (0, 3600) }

/-- Sample delivery point whose id carries the 2.5 emergency multiplier. -/
def outbreak_pharmacy : Pharmacy :=
  { id := "pharmacy_001", name := "Outbreak", latitude := 52, longitude := 106,
    priority := 2, delivery_window := (0, 3600) }

/-- The boosted copy the optimizer actually routes for outbreak_pharmacy:
priority min(10, 2 * 2.5) = 5. -/
def outbreak_pharmacy_boosted : Pharmacy :=
  { id := "pharmacy_001", name := "Outbreak", latitude := 52, longitude := 106,
    priority := 5, delivery_window := (0, 3600) }

/-- Sample delivery point with latitude 200, far outside [-90, 90]. -/
def invalid_pharmacy : Pharmacy :=
  { id := "pharmacy_900", name := "OffGrid", latitude := 200, longitude := 300,
    priority := 4, delivery_window := (0, 3600) }

/-- Helper: sorting a one-element boosted list is the identity. -/
lemma apply_emergency_priority_singleton (p : Pharmacy) :
    apply_emergency_priority [p] = [boost_pharmacy p] := by
  simp only [apply_emergency_priority, List.map]
  exact List.mergeSort_of_sorted (List.pairwise_singleton _ _)

/-- Helper: sorting an already-descending boosted pair is the identity. -/
lemma apply_emergency_priority_pair (p1 p2 : Pharmacy)
    (h : priority_ge (boost_pharmacy p1) (boost_pharmacy p2)) :
    apply_emergency_priority [p1, p2] = [boost_pharmacy p1, boost_pharmacy p2] := by
  simp only [apply_emergency_priority, List.map]
  exact List.mergeSort_of_sorted (List.pairwise_pair.mpr h)

/-- Helper: a one-candidate optimization runs one greedy step and yields the
depot-bracketed singleton route. -/
lemma optimize_delivery_route_single (p q : Pharmacy) (vc : ℤ) (w : Weather)
    (t0 : ℚ) (clock : ℕ → ℚ) (happ : apply_emergency_priority [p] = [q]) :
    optimize_delivery_route [p] vc w t0 clock = [depot t0, q, depot t0] := by
  simp only [optimize_delivery_route]
  rw [if_neg (List.cons_ne_nil p []), happ]
  simp only [List.length_cons, List.length_nil]
  rw [greedy_stops_succ w clock 0 0 (depot t0) [q] q
    (select_next_pharmacy_singleton (depot t0) q w (clock 0)), List.erase_cons_head]
  rfl

/-- Helper: a two-candidate optimization whose two selections are known. -/
lemma optimize_delivery_route_pair (p1 p2 q1 q2 : Pharmacy) (vc : ℤ) (w : Weather)
    (t0 : ℚ) (clock : ℕ → ℚ)
    (happ : apply_emergency_priority [p1, p2] = [p1, p2])
    (hsel1 : select_next_pharmacy (depot t0) [p1, p2] w (clock 0) = some q1)
    (hrem : [p1, p2].erase q1 = [q2])
    (hsel2 : select_next_pharmacy q1 [q2] w (clock 1) = some q2) :
    optimize_delivery_route [p1, p2] vc w t0 clock = [depot t0, q1, q2, depot t0] := by
  simp only [optimize_delivery_route]
  rw [if_neg (List.cons_ne_nil p1 [p2]), happ]
  simp only [List.length_cons, List.length_nil]
  rw [greedy_stops_succ w clock (0 + 1) 0 (depot t0) [p1, p2] q1 hsel1, hrem,
    greedy_stops_succ w clock 0 1 q1 [q2] q2 hsel2, List.erase_cons_head]
  rfl

/-- C1 (amended): an empty input yields the empty route; a non-empty input
of n points yields a depot-bracketed route of length n + 2 whose middle
block is a permutation of the priority-boosted copies of the n input points
(the boosted copies, not the raw inputs: an emergency multiplier rewrites
the priority field). -/
theorem optimize_delivery_route_shape_spec (pharmacies : List Pharmacy)
    (vehicle_capacity : ℤ) (current_weather : Weather) (t0 : ℚ) (clock : ℕ → ℚ) :
    (pharmacies = [] →
      optimize_delivery_route pharmacies vehicle_capacity current_weather t0 clock = []) ∧
    (pharmacies ≠ [] → ∃ body,
      optimize_delivery_route pharmacies vehicle_capacity current_weather t0 clock =
        depot t0 :: body ++ [depot t0] ∧
      body.Perm (pharmacies.map boost_pharmacy) ∧
      (optimize_delivery_route pharmacies vehicle_capacity current_weather t0 clock).length =
        pharmacies.length + 2) := by
  constructor
  · intro h
    subst h
    rfl
  · intro h
    obtain ⟨body, heq, hperm⟩ :=
      optimize_delivery_route_shape pharmacies vehicle_capacity current_weather t0 clock h
    refine ⟨body, heq, hperm, ?_⟩
    rw [heq]
    simp only [List.length_cons, List.length_append, hperm.length_eq, List.length_map,
      List.length_nil]

/-- Witness for C1 at a concrete one-point input. -/
theorem optimize_delivery_route_shape_spec_witness :
    ∃ body, optimize_delivery_route [routine_pharmacy] 1000 weather_clear 0 (fun _ => 0) =
        depot 0 :: body ++ [depot 0] ∧
      body.Perm ([routine_pharmacy].map boost_pharmacy) ∧
      (optimize_delivery_route [routine_pharmacy] 1000 weather_clear 0 (fun _ => 0)).length =
        [routine_pharmacy].length + 2 :=
  (optimize_delivery_route_shape_spec [routine_pharmacy] 1000 weather_clear 0 (fun _ => 0)).2
    (by simp)

/-- Counterexample to C1 as stated: for the input point with id
pharmacy_001 and priority 2 the routed middle element is the boosted copy
with priority 5, not the input point itself. -/
theorem optimize_delivery_route_middle_not_input :
    optimize_delivery_route [outbreak_pharmacy] 1000 weather_clear 0 (fun _ => 0) =
      [depot 0, outbreak_pharmacy_boosted, depot 0] ∧
    outbreak_pharmacy_boosted ≠ outbreak_pharmacy := by
  constructor
  · refine optimize_delivery_route_single outbreak_pharmacy outbreak_pharmacy_boosted
      1000 weather_clear 0 (fun _ => 0) ?_
    rw [apply_emergency_priority_singleton outbreak_pharmacy]
    simp only [boost_pharmacy, detect_emergency_situation, outbreak_pharmacy,
      outbreak_pharmacy_boosted]
    norm_num [min_def]
  · simp only [outbreak_pharmacy_boosted, outbreak_pharmacy, ne_eq, Pharmacy.mk.injEq]
    norm_num

/-- C5 (amended): the optimizer performs no coordinate validation; inputs
holding points with out-of-range latitude or longitude are processed like
any others and produce the full depot-bracketed route of length n + 2. -/
theorem optimize_delivery_route_no_validation (pharmacies : List Pharmacy)
    (vehicle_capacity : ℤ) (current_weather : Weather) (t0 : ℚ) (clock : ℕ → ℚ)
    (hne : pharmacies ≠ [])
    (hinvalid : ∃ p ∈ pharmacies, p.latitude < -90 ∨ 90 < p.latitude ∨
      p.longitude < -180 ∨ 180 < p.longitude) :
    (optimize_delivery_route pharmacies vehicle_capacity current_weather t0 clock).length =
      pharmacies.length + 2 := by
  obtain ⟨body, heq, hperm⟩ :=
    optimize_delivery_route_shape pharmacies vehicle_capacity current_weather t0 clock hne
  rw [heq]
  simp only [List.length_cons, List.length_append, hperm.length_eq, List.length_map,
    List.length_nil]

/-- Witness for C5 at a concrete out-of-range input. -/
theorem optimize_delivery_route_no_validation_witness :
    (optimize_delivery_route [invalid_pharmacy] 500 weather_clear 0 (fun _ => 0)).length =
      [invalid_pharmacy].length + 2 :=
  optimize_delivery_route_no_validation [invalid_pharmacy] 500 weather_clear 0 (fun _ => 0)
    (by simp) ⟨invalid_pharmacy, by simp, Or.inr (Or.inl (by decide))⟩

/-- Counterexample to C5 as stated: latitude 200 is far outside [-90, 90],
yet the call raises nothing and returns a complete route. -/
theorem optimize_delivery_route_accepts_invalid :
    optimize_delivery_route [invalid_pharmacy] 500 weather_clear 0 (fun _ => 0) =
      [depot 0, invalid_pharmacy, depot 0] ∧
    (90 : ℚ) < invalid_pharmacy.latitude := by
  constructor
  · refine optimize_delivery_route_single invalid_pharmacy invalid_pharmacy
      500 weather_clear 0 (fun _ => 0) ?_
    rw [apply_emergency_priority_singleton invalid_pharmacy]
    simp only [boost_pharmacy, detect_emergency_situation, invalid_pharmacy]
    norm_num [min_def]
    decide
  · decide

/-- C4 (amended): the report's stop count is always the route length minus
two, as a plain integer subtraction with no clamping; for the empty route
this is -2, not 0. -/
theorem generate_route_report_stop_count (route : List Pharmacy) :
    (generate_route_report route).pharmacy_count = (route.length : ℤ) - 2 := rfl

/-- Counterexample to C4 as stated: on the empty route the code reports
len(route) - 2 = -2, not 0. -/
theorem generate_route_report_empty_count :
    (generate_route_report []).pharmacy_count = -2 ∧ ((-2 : ℤ) ≠ 0) := by
  refine ⟨?_, by decide⟩
  show ((List.length ([] : List Pharmacy) : ℤ)) - 2 = -2
  decide

/-- C9: on a non-empty candidate list the selection helper always returns a
candidate from the list; every score is a real number and therefore
strictly above the bottom initial best, so the break branch of the greedy
loop never fires. -/
theorem select_next_pharmacy_never_none (current : Pharmacy) (candidates : List Pharmacy)
    (weather : Weather) (now : ℚ) (h : candidates ≠ []) :
    ∃ p, select_next_pharmacy current candidates weather now = some p ∧ p ∈ candidates :=
  select_next_pharmacy_mem current candidates weather now h

/-- Witness for C9 at a concrete one-candidate input. -/
theorem select_next_pharmacy_never_none_witness :
    ∃ p, select_next_pharmacy (depot 0) [routine_pharmacy] weather_clear 0 = some p ∧
      p ∈ [routine_pharmacy] :=
  select_next_pharmacy_never_none (depot 0) [routine_pharmacy] weather_clear 0 (by simp)

/-- C6 (amended): the selected candidate is the first list element
attaining the maximal score; ties between equal scores are broken by list
position (the list being the priority-sorted candidates), not by id. -/
theorem select_next_pharmacy_first_of_max (current : Pharmacy) (candidates : List Pharmacy)
    (weather : Weather) (now : ℚ) (h : candidates ≠ []) :
    ∃ r l1 l2, select_next_pharmacy current candidates weather now = some r ∧
      candidates = l1 ++ r :: l2 ∧
      (∀ p ∈ l1, calculate_pharmacy_score current p weather now <
        calculate_pharmacy_score current r weather now) ∧
      (∀ p ∈ candidates, calculate_pharmacy_score current p weather now ≤
        calculate_pharmacy_score current r weather now) := by
  match candidates, h with
  | q :: rest, _ =>
    have hstep : select_next_pharmacy current (q :: rest) weather now =
        select_loop current weather now rest
          ((calculate_pharmacy_score current q weather now : WithBot ℝ)) (some q) := by
      simp only [select_next_pharmacy, select_loop]
      rw [if_pos (WithBot.bot_lt_coe _)]
    obtain ⟨r, hr, -⟩ := select_loop_some current weather now rest
      ((calculate_pharmacy_score current q weather now : WithBot ℝ)) q
    rcases select_loop_first_max current weather now rest
        (calculate_pharmacy_score current q weather now) q r hr with
      ⟨hrq, hall⟩ | ⟨l1, l2, hdec, hs, h1, h2⟩
    · subst hrq
      refine ⟨r, [], rest, by rw [hstep]; exact hr, rfl, by simp, ?_⟩
      intro p hp
      rcases List.mem_cons.mp hp with h' | h'
      · exact h' ▸ le_refl _
      · exact hall p h'
    · refine ⟨r, q :: l1, l2, by rw [hstep]; exact hr, by rw [hdec]; rfl, ?_, ?_⟩
      · intro p hp
        rcases List.mem_cons.mp hp with h' | h'
        · exact h' ▸ hs
        · exact h1 p h'
      · intro p hp
        rcases List.mem_cons.mp hp with h' | h'
        · exact h' ▸ le_of_lt hs
        · rw [hdec] at h'
          rcases List.mem_append.mp h' with h'' | h''
          · exact le_of_lt (h1 p h'')
          · rcases List.mem_cons.mp h'' with h''' | h'''
            · exact h''' ▸ le_refl _
            · exact h2 p h'''

/-- Witness for C6 at a concrete one-candidate input. -/
theorem select_next_pharmacy_first_of_max_witness :
    ∃ r l1 l2, select_next_pharmacy (depot 0) [outbreak_pharmacy] weather_clear 0 = some r ∧
      [outbreak_pharmacy] = l1 ++ r :: l2 ∧
      (∀ p ∈ l1, calculate_pharmacy_score (depot 0) p weather_clear 0 <
        calculate_pharmacy_score (depot 0) r weather_clear 0) ∧
      (∀ p ∈ [outbreak_pharmacy], calculate_pharmacy_score (depot 0) p weather_clear 0 ≤
        calculate_pharmacy_score (depot 0) r weather_clear 0) :=
  select_next_pharmacy_first_of_max (depot 0) [outbreak_pharmacy] weather_clear 0 (by simp)

/-- Equal-scoring tie pair used against the lower-id tie-break claim: the
two points differ only in id and name, so their scores coincide, and the
id that is larger in string order sits earlier in the candidate list. -/
def tie_high_id : Pharmacy :=
  { id := "zz_9", name := "TieHigh", latitude := 53, longitude := 107,
    priority := 5, delivery_window := (0, 3600) }

/-- Tie partner of tie_high_id with the smaller id. -/
def tie_low_id : Pharmacy :=
  { id := "aa_1", name := "TieLow", latitude := 53, longitude := 107,
    priority := 5, delivery_window := (0, 3600) }

/-- Counterexample to C6 as stated: on an exact score tie the loop keeps
the earlier list element (here the one with the larger id), because a later
candidate only replaces the best on a strictly greater score. -/
theorem select_next_pharmacy_tie_ignores_id :
    select_next_pharmacy (depot 0) [tie_high_id, tie_low_id] weather_clear 0 = some tie_high_id ∧
    tie_low_id.id < tie_high_id.id ∧
    calculate_pharmacy_score (depot 0) tie_low_id weather_clear 0 =
      calculate_pharmacy_score (depot 0) tie_high_id weather_clear 0 := by
  have hd := calculate_pharmacy_score_diff (depot 0) tie_low_id tie_high_id weather_clear 0
    rfl rfl
  rw [show calculate_time_urgency tie_low_id 0 = calculate_time_urgency tie_high_id 0 from rfl,
    show tie_low_id.priority = tie_high_id.priority from rfl] at hd
  have heq : calculate_pharmacy_score (depot 0) tie_low_id weather_clear 0 =
      calculate_pharmacy_score (depot 0) tie_high_id weather_clear 0 := by
    have hzero : calculate_pharmacy_score (depot 0) tie_low_id weather_clear 0 -
        calculate_pharmacy_score (depot 0) tie_high_id weather_clear 0 = 0 := by
      rw [hd]; ring
    linarith
  refine ⟨select_next_pharmacy_pair_first (depot 0) tie_high_id tie_low_id weather_clear 0
    (le_of_eq heq), ?_, heq⟩
  show ("aa_1" : String) < "zz_9"
  rw [String.lt_iff_toList_lt]
  decide

/-- C7: the composite score is monotone non-decreasing in the candidate's
priority, all other inputs held fixed. -/
theorem calculate_pharmacy_score_mono_priority (current target : Pharmacy) (weather : Weather)
    (now : ℚ) (p p' : ℚ) (h : p ≤ p') :
    calculate_pharmacy_score current { target with priority := p } weather now ≤
      calculate_pharmacy_score current { target with priority := p' } weather now := by
  have hd := calculate_pharmacy_score_diff current { target with priority := p' }
    { target with priority := p } weather now rfl rfl
  rw [show calculate_time_urgency { target with priority := p' } now =
      calculate_time_urgency { target with priority := p } now from rfl,
    show ({ target with priority := p' } : Pharmacy).priority = p' from rfl,
    show ({ target with priority := p } : Pharmacy).priority = p from rfl] at hd
  have hcast : (p : ℝ) ≤ (p' : ℝ) := by exact_mod_cast h
  linarith [hd]

/-- Witness for C7 at concrete priorities 3 and 8. -/
theorem calculate_pharmacy_score_mono_priority_witness :
    calculate_pharmacy_score (depot 0) { routine_pharmacy with priority := 3 } weather_clear 0 ≤
      calculate_pharmacy_score (depot 0) { routine_pharmacy with priority := 8 } weather_clear 0 :=
  calculate_pharmacy_score_mono_priority (depot 0) routine_pharmacy weather_clear 0 3 8
    (by norm_num)

/-- C10: priority adjustment only rewrites the priority field; the output
is a permutation of the per-point boosted copies, and each boosted copy
keeps the id, name, coordinates and delivery window of its input (the
source builds fresh dataclass instances and never mutates the input
list). -/
theorem apply_emergency_priority_frame (pharmacies : List Pharmacy) :
    (apply_emergency_priority pharmacies).Perm (pharmacies.map boost_pharmacy) ∧
    ∀ p : Pharmacy, (boost_pharmacy p).id = p.id ∧ (boost_pharmacy p).name = p.name ∧
      (boost_pharmacy p).latitude = p.latitude ∧
      (boost_pharmacy p).longitude = p.longitude ∧
      (boost_pharmacy p).delivery_window = p.delivery_window :=
  ⟨List.mergeSort_perm _ _, fun _ => ⟨rfl, rfl, rfl, rfl, rfl⟩⟩

lemma priority_ge_trans : ∀ (a b c : Pharmacy), priority_ge a b → priority_ge b c →
    priority_ge a c := by
  intro a b c hab hbc
  simp only [priority_ge, decide_eq_true_eq] at *
  exact le_trans hbc hab

lemma priority_ge_total : ∀ (a b : Pharmacy), priority_ge a b || priority_ge b a := by
  intro a b
  simp only [priority_ge, Bool.or_eq_true, decide_eq_true_eq]
  exact le_total b.priority a.priority

/-- C2 (amended): priority adjustment returns a permutation of the boosted
copies, sorted descending by adjusted priority, stably (within each
priority class the original order of the boosted list is kept verbatim),
and the adjusted priority is min(10, priority * multiplier) with no
rounding. -/
theorem apply_emergency_priority_spec (pharmacies : List Pharmacy) :
    (apply_emergency_priority pharmacies).Perm (pharmacies.map boost_pharmacy) ∧
    (apply_emergency_priority pharmacies).Pairwise (fun a b => b.priority ≤ a.priority) ∧
    (∀ c : ℚ, (apply_emergency_priority pharmacies).filter (fun p => decide (p.priority = c)) =
      (pharmacies.map boost_pharmacy).filter (fun p => decide (p.priority = c))) ∧
    (∀ p : Pharmacy, (boost_pharmacy p).priority =
      min 10 (p.priority * detect_emergency_situation p)) := by
  refine ⟨List.mergeSort_perm _ _, ?_, ?_, fun _ => rfl⟩
  · have hs := List.sorted_mergeSort priority_ge_trans priority_ge_total
      (pharmacies.map boost_pharmacy)
    exact hs.imp fun hab => by simpa [priority_ge, decide_eq_true_eq] using hab
  · intro c
    have hall : ∀ a ∈ (pharmacies.map boost_pharmacy).filter
        (fun p => decide (p.priority = c)), a.priority = c := by
      intro a ha
      simpa using (List.mem_filter.mp ha).2
    have hpair : ((pharmacies.map boost_pharmacy).filter
        (fun p => decide (p.priority = c))).Pairwise (fun a b => priority_ge a b) := by
      apply List.pairwise_of_forall_mem_list
      intro a ha b hb
      simp [priority_ge, hall a ha, hall b hb]
    have hsubl : List.Sublist
        ((pharmacies.map boost_pharmacy).filter (fun p => decide (p.priority = c)))
        (apply_emergency_priority pharmacies) :=
      List.sublist_mergeSort priority_ge_trans priority_ge_total hpair (List.filter_sublist _)
    have hself : ((pharmacies.map boost_pharmacy).filter
        (fun p => decide (p.priority = c))).filter (fun p => decide (p.priority = c)) =
        (pharmacies.map boost_pharmacy).filter (fun p => decide (p.priority = c)) :=
      List.filter_eq_self.mpr fun a ha => by simp [hall a ha]
    have hsubl2 : List.Sublist
        ((pharmacies.map boost_pharmacy).filter (fun p => decide (p.priority = c)))
        ((apply_emergency_priority pharmacies).filter (fun p => decide (p.priority = c))) := by
      have := hsubl.filter (fun p => decide (p.priority = c))
      rwa [hself] at this
    have hperm : ((apply_emergency_priority pharmacies).filter
        (fun p => decide (p.priority = c))).Perm
        ((pharmacies.map boost_pharmacy).filter (fun p => decide (p.priority = c))) :=
      (List.mergeSort_perm _ _).filter _
    exact (hsubl2.eq_of_length hperm.length_eq.symm).symm

/-- Sample delivery point whose id carries the 1.8 emergency multiplier,
exposing the fractional adjusted priority 3 * 1.8 = 5.4. -/
def flu_pharmacy : Pharmacy :=
  { id := "pharmacy_005", name := "Flu", latitude := 52, longitude := 106,
    priority := 3, delivery_window := (0, 3600) }

/-- Counterexample to C2 as stated: for priority 3 and multiplier 1.8 the
code stores 5.4 while the claimed formula min(10, round(3 * 1.8)) gives 5. -/
theorem apply_emergency_priority_no_rounding :
    (apply_emergency_priority [flu_pharmacy]).map Pharmacy.priority = [27 / 5] ∧
    (27 / 5 : ℚ) ≠ ((round ((3 : ℚ) * (9 / 5)) : ℤ) : ℚ) ⊓ 10 := by
  constructor
  · rw [apply_emergency_priority_singleton flu_pharmacy]
    simp only [List.map, boost_pharmacy, detect_emergency_situation, flu_pharmacy]
    norm_num [min_def]
    rw [if_neg (by decide : ¬("pharmacy_005" : String) = "pharmacy_001")]
    norm_num
  · have hr : round ((3 : ℚ) * (9 / 5)) = 5 := by
      norm_num [round_eq]
    rw [hr]
    norm_num

/-- Delivery point whose window opens one hour after epoch: urgent (30) at
clock 0, stale (5) when the call happens ten hours earlier. -/
def early_pharmacy : Pharmacy :=
  { id := "alpha_7", name := "EarlyWindow", latitude := 52, longitude := 106,
    priority := 5, delivery_window := (3600, 36000) }

/-- Delivery point at the same coordinates with a window opening three
hours after epoch and a higher priority. -/
def late_pharmacy : Pharmacy :=
  { id := "beta_7", name := "LateWindow", latitude := 52, longitude := 106,
    priority := 6, delivery_window := (10800, 36000) }

lemma boost_early_pharmacy : boost_pharmacy early_pharmacy = early_pharmacy := by
  simp only [boost_pharmacy, detect_emergency_situation, early_pharmacy]
  norm_num [min_def]
  rw [if_neg (by decide : ¬("alpha_7" : String) = "pharmacy_001"),
    if_neg (by decide : ¬("alpha_7" : String) = "pharmacy_005")]
  norm_num

lemma boost_late_pharmacy : boost_pharmacy late_pharmacy = late_pharmacy := by
  simp only [boost_pharmacy, detect_emergency_situation, late_pharmacy]
  norm_num [min_def]
  rw [if_neg (by decide : ¬("beta_7" : String) = "pharmacy_001"),
    if_neg (by decide : ¬("beta_7" : String) = "pharmacy_005")]
  norm_num

lemma late_early_sorted :
    apply_emergency_priority [late_pharmacy, early_pharmacy] =
      [late_pharmacy, early_pharmacy] := by
  rw [apply_emergency_priority_pair late_pharmacy early_pharmacy
    (by rw [boost_late_pharmacy, boost_early_pharmacy]; decide),
    boost_late_pharmacy, boost_early_pharmacy]

lemma early_beats_late_at_zero :
    calculate_pharmacy_score (depot 0) late_pharmacy weather_clear 0 <
      calculate_pharmacy_score (depot 0) early_pharmacy weather_clear 0 := by
  have hd := calculate_pharmacy_score_diff (depot 0) early_pharmacy late_pharmacy
    weather_clear 0 rfl rfl
  rw [show calculate_time_urgency early_pharmacy 0 = 30 from by
      norm_num [calculate_time_urgency, early_pharmacy],
    show calculate_time_urgency late_pharmacy 0 = 15 from by
      norm_num [calculate_time_urgency, late_pharmacy],
    show early_pharmacy.priority = 5 from rfl,
    show late_pharmacy.priority = 6 from rfl] at hd
  have hgap : calculate_pharmacy_score (depot 0) early_pharmacy weather_clear 0 -
      calculate_pharmacy_score (depot 0) late_pharmacy weather_clear 0 = 5 := by
    rw [hd]
    push_cast
    ring
  linarith

lemma late_beats_early_at_past :
    calculate_pharmacy_score (depot 0) early_pharmacy weather_clear (-36000) <
      calculate_pharmacy_score (depot 0) late_pharmacy weather_clear (-36000) := by
  have hd := calculate_pharmacy_score_diff (depot 0) early_pharmacy late_pharmacy
    weather_clear (-36000) rfl rfl
  rw [show calculate_time_urgency early_pharmacy (-36000) = 5 from by
      norm_num [calculate_time_urgency, early_pharmacy],
    show calculate_time_urgency late_pharmacy (-36000) = 5 from by
      norm_num [calculate_time_urgency, late_pharmacy],
    show early_pharmacy.priority = 5 from rfl,
    show late_pharmacy.priority = 6 from rfl] at hd
  have hgap : calculate_pharmacy_score (depot 0) early_pharmacy weather_clear (-36000) -
      calculate_pharmacy_score (depot 0) late_pharmacy weather_clear (-36000) = -10 := by
    rw [hd]
    push_cast
    ring
  linarith

/-- C3 refuted on the code: the urgency term re-reads the wall clock at
every scoring step, so the same point set, priorities and weather snapshot
yield different routes when the optimization runs at different times; with
the clock at epoch the early-window point is served first, ten hours
earlier the late-window point is. -/
theorem optimize_delivery_route_clock_sensitive :
    optimize_delivery_route [late_pharmacy, early_pharmacy] 1000 weather_clear 0 (fun _ => 0) =
      [depot 0, early_pharmacy, late_pharmacy, depot 0] ∧
    optimize_delivery_route [late_pharmacy, early_pharmacy] 1000 weather_clear 0
        (fun _ => -36000) =
      [depot 0, late_pharmacy, early_pharmacy, depot 0] ∧
    optimize_delivery_route [late_pharmacy, early_pharmacy] 1000 weather_clear 0 (fun _ => 0) ≠
      optimize_delivery_route [late_pharmacy, early_pharmacy] 1000 weather_clear 0
        (fun _ => -36000) := by
  have herase1 : [late_pharmacy, early_pharmacy].erase early_pharmacy = [late_pharmacy] := by
    simp [List.erase_cons, late_pharmacy, early_pharmacy]
  have r1 : optimize_delivery_route [late_pharmacy, early_pharmacy] 1000 weather_clear 0
      (fun _ => 0) = [depot 0, early_pharmacy, late_pharmacy, depot 0] :=
    optimize_delivery_route_pair late_pharmacy early_pharmacy early_pharmacy late_pharmacy
      1000 weather_clear 0 (fun _ => 0) late_early_sorted
      (select_next_pharmacy_pair_second (depot 0) late_pharmacy early_pharmacy weather_clear 0
        early_beats_late_at_zero)
      herase1
      (select_next_pharmacy_singleton early_pharmacy late_pharmacy weather_clear 0)
  have r2 : optimize_delivery_route [late_pharmacy, early_pharmacy] 1000 weather_clear 0
      (fun _ => -36000) = [depot 0, late_pharmacy, early_pharmacy, depot 0] :=
    optimize_delivery_route_pair late_pharmacy early_pharmacy late_pharmacy early_pharmacy
      1000 weather_clear 0 (fun _ => -36000) late_early_sorted
      (select_next_pharmacy_pair_first (depot 0) late_pharmacy early_pharmacy weather_clear
        (-36000) (le_of_lt late_beats_early_at_past))
      (List.erase_cons_head late_pharmacy [early_pharmacy])
      (select_next_pharmacy_singleton late_pharmacy early_pharmacy weather_clear (-36000))
  refine ⟨r1, r2, ?_⟩
  rw [r1, r2]
  simp [early_pharmacy, late_pharmacy, Pharmacy.mk.injEq]
